import Mathlib

/-!
# Main API gateway: embedding of the request handlers

A shallow embedding of the Express application of this repository:
`src/utils/index.js`, the three controllers, the three routers, `src/index.js`
and the part of `src/metrics.js` that the request path touches.

Conventions of the embedding.

* JavaScript strings are Lean strings.  The only string primitive whose
  behaviour matters, `String.prototype.includes` with an ASCII needle, is
  modelled on lists of characters.
* A value that may be `undefined` is an `Option`: `none` is `undefined`.
  The values `JSON.parse` produces are the type `Json`.
* The downstream service and the clock are inputs.  A `Downstream` answers
  the n-th outgoing request of a handler invocation, so that two requests to
  the same URL may be answered differently.
* `async` code is written in explicit state-passing style; the state is the
  trace of outgoing requests issued so far.
* A JavaScript exception is an `Except` whose error is the message of the
  thrown `Error`.
* Response headers are not modelled; a response is a status code and a body.
-/

namespace MainApi

/-! ## JavaScript values -/

/-- A value produced by `JSON.parse`, and therefore a value that survives
`JSON.stringify` unchanged.  Numbers are restricted to integers: the
handlers never compute with them. -/
inductive Json where
  | null : Json
  | bool (b : Bool) : Json
  | num (n : Int) : Json
  | str (s : String) : Json
  | arr (xs : List Json) : Json
  | obj (fields : List (String × Json)) : Json

/-- A JavaScript value the handlers meet: `none` is `undefined`. -/
abbrev JsVal := Option Json

namespace Json

/-- JavaScript truthiness (`ToBoolean`) of a defined value. -/
def truthy : Json → Bool
  | null => false
  | bool b => b
  | num n => n != 0
  | str s => s != ""
  | arr _ => true
  | obj _ => true

/-- Own-property lookup in a parsed object (its keys are distinct). -/
def lookup (k : String) : List (String × Json) → JsVal
  | [] => none
  | (k', v) :: rest => if k' = k then some v else lookup k rest

/-- The member access `v.k` on a defined value: a `TypeError` on `null`, the
property for an object, `undefined` for the other values (the names the
handlers read are not built-in properties of strings, numbers, booleans or
arrays). -/
def getProp (v : Json) (k : String) : Except String JsVal :=
  match v with
  | null => .error "Cannot read properties of null"
  | obj fields => .ok (lookup k fields)
  | _ => .ok none

mutual
/-- The string conversion a template literal applies to a defined value. -/
def toStr : Json → String
  | null => "null"
  | bool b => if b then "true" else "false"
  | num n => toString n
  | str s => s
  | arr xs => ",".intercalate (toStrElems xs)
  | obj _ => "[object Object]"
/-- The pieces `Array.prototype.join` separates by commas: a `null` element
gives the empty string. -/
def toStrElems : List Json → List String
  | [] => []
  | null :: xs => "" :: toStrElems xs
  | x :: xs => toStr x :: toStrElems xs
end

end Json

/-- The string conversion a template literal applies to any value. -/
def render : JsVal → String
  | none => "undefined"
  | some v => v.toStr

/-- The expression `a || b` with a defined right operand. -/
def jsOr (a : JsVal) (b : Json) : Json :=
  match a with
  | some v => if v.truthy then v else b
  | none => b

/-- The body `JSON.stringify` produces for an object literal whose property
values may be `undefined`: such properties are left out. -/
def objLit (fields : List (String × JsVal)) : Json :=
  .obj (fields.filterMap (fun kv => kv.2.map (fun v => (kv.1, v))))

/-- The method `s.includes(t)`: some suffix of `s` starts with `t`. -/
def includes (s t : String) : Bool :=
  s.toList.tails.any (fun u => t.toList.isPrefixOf u)

/-! ## Environment, downstream service, outgoing requests -/

/-- The environment variables the program reads (`process.env`); `none` is
an unset variable. -/
structure Env where
  PORT : Option String
  SERVICE_VERSION : Option String
  AUXILIARY_SERVICE_URL : Option String

/-- The expression `process.env.X`. -/
def envVal (x : Option String) : JsVal :=
  x.map Json.str

/-- An outgoing `axios.get` with its URL and its timeout in milliseconds.  The
headers `callAuxiliaryService` adds (a fixed `User-Agent` and a random
`X-Request-ID`) are left out. -/
structure Call where
  url : String
  timeout : Nat
deriving DecidableEq, Repr

/-- The outcome of an `axios.get`: the response body (`response.data`) of a
2xx answer, or the `message` of the error axios rejects with (network
failure, non-2xx status, timeout). -/
abbrev AxiosResult := Except String Json

/-- The downstream service: its answer to the `n`-th outgoing request
(counted from 0 within one handler invocation). -/
abbrev Downstream := Nat → Call → AxiosResult

/-- The outgoing requests issued so far, oldest first. -/
abbrev Trace := List Call

/-- Issue one request and await its outcome. -/
def axiosGet (d : Downstream) (url : String) (timeout : Nat) (t : Trace) :
    AxiosResult × Trace :=
  (d t.length ⟨url, timeout⟩, t ++ [⟨url, timeout⟩])

/-! ## `src/utils/index.js` -/

/-- The module constant `AUXILIARY_SERVICE_URL` of `src/utils/index.js`:
`process.env.AUXILIARY_SERVICE_URL || "http://localhost:3001"`. -/
def AUXILIARY_SERVICE_URL (env : Env) : String :=
  (jsOr (envVal env.AUXILIARY_SERVICE_URL) (.str "http://localhost:3001")).toStr

/-- The function `callAuxiliaryService(endpoint)`: the response data, or a
thrown `Error` whose message is the axios message behind a fixed lead-in. -/
def callAuxiliaryService (env : Env) (d : Downstream) (endpoint : String) (t : Trace) :
    Except String Json × Trace :=
  match axiosGet d (AUXILIARY_SERVICE_URL env ++ endpoint) 10000 t with
  | (.ok data, t') => (.ok data, t')
  | (.error message, t') => (.error ("Auxiliary service error: " ++ message), t')

/-- The function `getAuxiliaryServiceVersion()`: `response.version || "unknown"`,
and `"unknown"` when anything in the `try` block throws. -/
def getAuxiliaryServiceVersion (env : Env) (d : Downstream) (t : Trace) : Json × Trace :=
  match callAuxiliaryService env d "/version" t with
  | (.ok response, t') =>
    match response.getProp "version" with
    | .ok version => (jsOr version (.str "unknown"), t')
    | .error _ => (.str "unknown", t')
  | (.error _, t') => (.str "unknown", t')

/-! ## Requests and responses -/

/-- An incoming request: method, path (as its segments) and parsed query
string (`req.query`). -/
structure Req where
  method : String
  segments : List String
  query : List (String × Json)

/-- What has been written to the response. -/
inductive Body where
  | text (s : String) : Body
  | json (v : Json) : Body

/-- The response object `res`: the status code (200 until set) and the body,
`none` while nothing has been sent. -/
structure Res where
  statusCode : Nat
  body : Option Body

namespace Res

/-- A response object as Express hands it to the first handler. -/
def fresh : Res := ⟨200, none⟩

/-- The call `res.status(code)`. -/
def status (res : Res) (code : Nat) : Res :=
  { res with statusCode := code }

/-- The call `res.json(v)`, `v` being the serialized value. -/
def json (res : Res) (v : Json) : Res :=
  { res with body := some (.json v) }

/-- The calls `res.send(s)` and `res.end(s)` with a string. -/
def send (res : Res) (s : String) : Res :=
  { res with body := some (.text s) }

/-- The property `k` of a JSON body, `undefined` when the body has none. -/
def field (res : Res) (k : String) : JsVal :=
  match res.body with
  | some (.json (.obj fields)) => Json.lookup k fields
  | _ => none

/-- Whether the response has been sent. -/
def sent (res : Res) : Bool :=
  res.body.isSome

end Res

/-- The property `k` of a JSON object value, `undefined` otherwise. -/
def Json.field (v : Json) (k : String) : JsVal :=
  match v with
  | .obj fields => Json.lookup k fields
  | _ => none

/-! ## `src/controllers/bucket.controller.js` -/

/-- The handler `listBuckets(req, res)`; `now` is `new Date().toISOString()`. -/
def listBuckets (env : Env) (d : Downstream) (now : String) (_req : Req) (res : Res)
    (t : Trace) : Res × Trace :=
  match getAuxiliaryServiceVersion env d t with
  | (auxiliaryVersion, t1) =>
    match callAuxiliaryService env d "/aws/s3/buckets" t1 with
    | (.ok buckets, t2) =>
      (res.json (objLit [
        ("success", some (.bool true)),
        ("data", some buckets),
        ("versions", some (objLit [
          ("main-api", envVal env.SERVICE_VERSION),
          ("auxiliary-service", some auxiliaryVersion)])),
        ("timestamp", some (.str now))]), t2)
    | (.error message, t2) =>
      match getAuxiliaryServiceVersion env d t2 with
      | (version, t3) =>
        ((res.status 500).json (objLit [
          ("success", some (.bool false)),
          ("error", some (.str message)),
          ("versions", some (objLit [
            ("main-api", envVal env.SERVICE_VERSION),
            ("auxiliary-service", some version)])),
          ("timestamp", some (.str now))]), t3)

/-! ## `src/controllers/parameter.controller.js` -/

/-- The handler `listParameters(req, res)`. -/
def listParameters (env : Env) (d : Downstream) (now : String) (_req : Req) (res : Res)
    (t : Trace) : Res × Trace :=
  match getAuxiliaryServiceVersion env d t with
  | (auxiliaryVersion, t1) =>
    match callAuxiliaryService env d "/aws/parameters/list" t1 with
    | (.ok parameters, t2) =>
      (res.json (objLit [
        ("success", some (.bool true)),
        ("data", some parameters),
        ("versions", some (objLit [
          ("main-api", envVal env.SERVICE_VERSION),
          ("auxiliary-service", some auxiliaryVersion)])),
        ("timestamp", some (.str now))]), t2)
    | (.error message, t2) =>
      match getAuxiliaryServiceVersion env d t2 with
      | (version, t3) =>
        ((res.status 500).json (objLit [
          ("success", some (.bool false)),
          ("error", some (.str message)),
          ("versions", some (objLit [
            ("main-api", envVal env.SERVICE_VERSION),
            ("auxiliary-service", some version)])),
          ("timestamp", some (.str now))]), t3)

/-- The endpoint `getParameterValue` builds from `req.query.name`. -/
def parameterEndpoint (req : Req) : String :=
  "/aws/parameters?name=" ++ render (Json.lookup "name" req.query)

/-- The handler `getParameterValue(req, res)`. -/
def getParameterValue (env : Env) (d : Downstream) (now : String) (req : Req) (res : Res)
    (t : Trace) : Res × Trace :=
  match getAuxiliaryServiceVersion env d t with
  | (auxiliaryVersion, t1) =>
    match callAuxiliaryService env d (parameterEndpoint req) t1 with
    | (.ok parameter, t2) =>
      (res.json (objLit [
        ("success", some (.bool true)),
        ("data", some parameter),
        ("versions", some (objLit [
          ("main-api", envVal env.SERVICE_VERSION),
          ("auxiliary-service", some auxiliaryVersion)])),
        ("timestamp", some (.str now))]), t2)
    | (.error message, t2) =>
      let statusCode := if includes message "not found" then 404 else 500
      match getAuxiliaryServiceVersion env d t2 with
      | (version, t3) =>
        ((res.status statusCode).json (objLit [
          ("success", some (.bool false)),
          ("error", some (.str message)),
          ("versions", some (objLit [
            ("main-api", envVal env.SERVICE_VERSION),
            ("auxiliary-service", some version)])),
          ("timestamp", some (.str now))]), t3)

/-! ## `src/controllers/health.controller.js` -/

/-- The handler `checkReadiness(req, res)`. -/
def checkReadiness (env : Env) (d : Downstream) (now : String) (_req : Req) (res : Res)
    (t : Trace) : Res × Trace :=
  match axiosGet d (render (envVal env.AUXILIARY_SERVICE_URL) ++ "/health") 5000 t with
  | (.ok _, t1) =>
    match getAuxiliaryServiceVersion env d t1 with
    | (version, t2) =>
      ((res.status 200).json (objLit [
        ("status", some (.str "ready")),
        ("timestamp", some (.str now)),
        ("versions", some (objLit [
          ("main-api", envVal env.SERVICE_VERSION),
          ("auxiliary-service", some version)])),
        ("service", some (.str "main-api"))]), t2)
  | (.error _, t1) =>
    match getAuxiliaryServiceVersion env d t1 with
    | (version, t2) =>
      ((res.status 503).json (objLit [
        ("status", some (.str "not ready")),
        ("error", some (.str "Auxiliary service not available")),
        ("timestamp", some (.str now)),
        ("versions", some (objLit [
          ("main-api", envVal env.SERVICE_VERSION),
          ("auxiliary-service", some version)])),
        ("service", some (.str "main-api"))]), t2)

/-! ## `src/metrics.js` -/

/-- The label set of both custom metrics: `method`, `route`, `status_code`. -/
structure Labels where
  method : String
  route : String
  status_code : Nat
deriving DecidableEq, Repr

/-- The two custom metrics, each as the log of the updates applied to it:
`observe(labels, duration)` on `http_request_duration_seconds` (the duration
kept as the millisecond difference the code divides by 1000) and
`inc(labels)` on `http_requests_total`. -/
structure Metrics where
  httpRequestDuration : List (Labels × Int)
  httpRequestsTotal : List Labels
deriving DecidableEq, Repr

/-- The metrics `createPrometheusMetrics()` returns: nothing recorded yet. -/
def createPrometheusMetrics : Metrics := ⟨[], []⟩

/-- The value of the counter `http_requests_total` for one label set. -/
def Metrics.requests (m : Metrics) (l : Labels) : Nat :=
  m.httpRequestsTotal.count l

/-! ## `src/routes/*.route.js` and `src/index.js` -/

/-- The request handlers registered on the routers and on the app. -/
inductive Handler where
  | liveness
  | checkReadiness
  | listBuckets
  | getParameterValue
  | listParameters
  | metricsEndpoint
deriving DecidableEq, Repr

/-- A route `router.get(path, handler)`; `segments` is `path` split at the
slashes. -/
structure Route where
  path : String
  segments : List String
  handler : Handler

/-- The router of `src/routes/health.route.js`. -/
def healthRoute : List Route :=
  [⟨"/", [], .liveness⟩, ⟨"/ready", ["ready"], .checkReadiness⟩]

/-- The router of `src/routes/bucket.route.js`. -/
def bucketRoutes : List Route :=
  [⟨"/", [], .listBuckets⟩]

/-- The router of `src/routes/parameter.route.js`. -/
def parameterRoutes : List Route :=
  [⟨"/", [], .getParameterValue⟩, ⟨"/list", ["list"], .listParameters⟩]

/-- One entry of the app's middleware stack. -/
inductive Layer where
  /-- Library middleware (`helmet`, `cors`, `morgan`, `express.json`), taken
  to pass the request on. -/
  | library (name : String) : Layer
  /-- The call `app.use(path, router)`. -/
  | mount (segments : List String) (routes : List Route) : Layer
  /-- The metrics middleware. -/
  | trackMetrics : Layer
  /-- The call `app.get(path, handler)`. -/
  | get (route : Route) : Layer
  /-- The four-argument error-handling middleware. -/
  | errorHandling : Layer
  /-- The final `app.use` of the 404 handler. -/
  | notFound : Layer

/-- The middleware stack of `src/index.js`, in registration order. -/
def app : List Layer :=
  [ .library "helmet",
    .library "cors",
    .library "morgan",
    .library "express.json",
    .mount ["api", "health"] healthRoute,
    .mount ["api", "s3", "buckets"] bucketRoutes,
    .mount ["api", "parameters"] parameterRoutes,
    .trackMetrics,
    .get ⟨"/metrics", ["metrics"], .metricsEndpoint⟩,
    .errorHandling,
    .notFound ]

/-- The constant `SERVICE_VERSION` of `src/index.js`:
`process.env.SERVICE_VERSION || "1.0.0"`. -/
def SERVICE_VERSION (env : Env) : Json :=
  jsOr (envVal env.SERVICE_VERSION) (.str "1.0.0")

/-- The constant `PORT` of `src/index.js`: `process.env.PORT || 3000`. -/
def PORT (env : Env) : Json :=
  jsOr (envVal env.PORT) (.num 3000)

/-- Everything outside the program that one request depends on. -/
structure World where
  /-- The environment variables. -/
  env : Env
  /-- The auxiliary service. -/
  downstream : Downstream
  /-- The value of `new Date().toISOString()` when the body is built. -/
  now : String
  /-- The value of `Date.now()` when the metrics middleware runs. -/
  startMs : Int
  /-- The value of `Date.now()` when the response has been sent. -/
  finishMs : Int
  /-- The outcome of `register.metrics()`: the exposition text, or the
  message of the error it throws. -/
  exposition : Except String String

/-- The error-handling middleware of `src/index.js`. -/
def errorHandler (env : Env) (now : String) (res : Res) : Res :=
  (res.status 500).json (objLit [
    ("success", some (.bool false)),
    ("error", some (.str "Internal server error")),
    ("versions", some (objLit [
      ("main-api", some (SERVICE_VERSION env)),
      ("auxiliary-service", some (.str "unknown"))])),
    ("timestamp", some (.str now))])

/-- The 404 handler of `src/index.js`. -/
def notFoundHandler (env : Env) (now : String) (res : Res) : Res :=
  (res.status 404).json (objLit [
    ("success", some (.bool false)),
    ("error", some (.str "Endpoint not found")),
    ("versions", some (objLit [
      ("main-api", some (SERVICE_VERSION env)),
      ("auxiliary-service", some (.str "unknown"))])),
    ("timestamp", some (.str now))])

/-- The handler of `GET /metrics`. -/
def metricsEndpoint (w : World) (res : Res) : Res :=
  match w.exposition with
  | .ok text => res.send text
  | .error error => (res.status 500).send error

/-- Run a request handler. -/
def Handler.run (h : Handler) (w : World) (req : Req) (res : Res) (t : Trace) :
    Res × Trace :=
  match h with
  | .liveness => (res.send "OK", t)
  | .checkReadiness => MainApi.checkReadiness w.env w.downstream w.now req res t
  | .listBuckets => MainApi.listBuckets w.env w.downstream w.now req res t
  | .getParameterValue => MainApi.getParameterValue w.env w.downstream w.now req res t
  | .listParameters => MainApi.listParameters w.env w.downstream w.now req res t
  | .metricsEndpoint => (MainApi.metricsEndpoint w res, t)

/-- The state of one request while it travels down the stack. -/
structure Ctx where
  /-- The response object. -/
  res : Res
  /-- The outgoing requests issued so far. -/
  trace : Trace
  /-- The path of the matched route (`req.route?.path`). -/
  route : Option String
  /-- The start times captured by the registered `finish` listeners. -/
  listeners : List Int
  /-- The error passed to `next`, if any. -/
  err : Option String

/-- Whether a `get` route answers the method: `GET`, and `HEAD` as well. -/
def methodMatches (method : String) : Bool :=
  method = "GET" || method = "HEAD"

/-- The first route of a router that matches the method and the path left
after the mount point. -/
def findRoute (method : String) (rest : List String) : List Route → Option Route
  | [] => none
  | r :: rs =>
    if methodMatches method && r.segments = rest then some r else findRoute method rest rs

/-- The path left after a mount point, when the request path lies under it. -/
def stripMount : List String → List String → Option (List String)
  | [], path => some path
  | _ :: _, [] => none
  | m :: ms, p :: ps => if m = p then stripMount ms ps else none

/-- Run one layer.  The boolean tells whether the layer called `next`, that
is, whether the request goes on to the following layer. -/
def Layer.run (l : Layer) (w : World) (req : Req) (c : Ctx) : Ctx × Bool :=
  match l, c.err with
  | .errorHandling, some _ => ({ c with res := errorHandler w.env w.now c.res }, false)
  | .errorHandling, none => (c, true)
  | _, some _ => (c, true)
  | .library _, none => (c, true)
  | .mount segments routes, none =>
    match stripMount segments req.segments with
    | none => (c, true)
    | some rest =>
      match findRoute req.method rest routes with
      | none => (c, true)
      | some r =>
        ({ c with res := (r.handler.run w req c.res c.trace).1,
                  trace := (r.handler.run w req c.res c.trace).2,
                  route := some r.path }, false)
  | .trackMetrics, none => ({ c with listeners := c.listeners ++ [w.startMs] }, true)
  | .get r, none =>
    if methodMatches req.method && r.segments = req.segments then
      ({ c with res := (r.handler.run w req c.res c.trace).1,
                trace := (r.handler.run w req c.res c.trace).2,
                route := some r.path }, false)
    else (c, true)
  | .notFound, none => ({ c with res := notFoundHandler w.env w.now c.res }, false)

/-- Pass the request down the stack until a layer does not call `next`. -/
def dispatch (w : World) (req : Req) : List Layer → Ctx → Ctx
  | [], c => c
  | l :: ls, c =>
    match l.run w req c with
    | (c', true) => dispatch w req ls c'
    | (c', false) => c'

/-- The property `req.path`. -/
def Req.path (req : Req) : String :=
  "/" ++ "/".intercalate req.segments

/-- The labels the `finish` listener computes. -/
def finishLabels (req : Req) (c : Ctx) : Labels :=
  ⟨req.method, c.route.getD req.path, c.res.statusCode⟩

/-- One run of the `finish` listener registered by the metrics middleware. -/
def onFinish (w : World) (req : Req) (c : Ctx) (start : Int) (m : Metrics) : Metrics :=
  { httpRequestDuration := m.httpRequestDuration ++ [(finishLabels req c, w.finishMs - start)],
    httpRequestsTotal := m.httpRequestsTotal ++ [finishLabels req c] }

/-- The outcome of one request: the response, the outgoing requests and the
metrics after the `finish` event. -/
structure Outcome where
  res : Res
  trace : Trace
  metrics : Metrics

/-- Serve one request: run it down the stack, then fire `finish`, which runs
the listeners registered on the way, if the response was sent. -/
def handle (w : World) (req : Req) (m : Metrics) : Outcome :=
  let c := dispatch w req app ⟨Res.fresh, [], none, [], none⟩
  { res := c.res,
    trace := c.trace,
    metrics := if c.res.sent then c.listeners.foldl (fun acc start => onFinish w req c start acc) m
               else m }

/-! ## Concrete environments, services and requests -/

/-- An environment in which none of the three variables is set. -/
def envUnset : Env := ⟨none, none, none⟩

/-- An environment in which all three variables are set. -/
def envSet : Env := ⟨some "8080", some "2.4.1", some "http://aux:3001"⟩

/-- A downstream service that answers every request with a version object
whose `version` is the empty string. -/
def downstreamEmptyVersion : Downstream :=
  fun _ _ => .ok (.obj [("version", .str "")])

/-- The request `GET /api/health`. -/
def getHealth : Req := ⟨"GET", ["api", "health"], []⟩

/-- The request `GET /api/health/ready`. -/
def getReady : Req := ⟨"GET", ["api", "health", "ready"], []⟩

/-- The request `GET /api/s3/buckets`. -/
def getBuckets : Req := ⟨"GET", ["api", "s3", "buckets"], []⟩

/-- The request `GET /api/parameters` without a query string. -/
def getParameter : Req := ⟨"GET", ["api", "parameters"], []⟩

/-- The request `GET /api/parameters/list`. -/
def getParameterList : Req := ⟨"GET", ["api", "parameters", "list"], []⟩

/-- The request `GET /metrics`. -/
def getMetrics : Req := ⟨"GET", ["metrics"], []⟩

/-- A request no route matches, `GET /nope`. -/
def getNope : Req := ⟨"GET", ["nope"], []⟩

/-! ## The common shape of the three proxying handlers -/

/-- The outgoing request for the version of the auxiliary service. -/
def versionCall (env : Env) : Call :=
  ⟨AUXILIARY_SERVICE_URL env ++ "/version", 10000⟩

/-- The outgoing request `callAuxiliaryService(endpoint)` issues. -/
def primaryCall (env : Env) (endpoint : String) : Call :=
  ⟨AUXILIARY_SERVICE_URL env ++ endpoint, 10000⟩

/-- The auxiliary-service version of a JSON body: `body.versions[k]`. -/
def Res.version (res : Res) (k : String) : JsVal :=
  (res.field "versions").bind (fun v => v.field k)

/-- What `listBuckets`, `listParameters` and `getParameterValue` come to, as a
function of the endpoint and of the status code chosen on failure; the three
handlers are shown equal to it below (`listBuckets_eq`, `listParameters_eq`,
`getParameterValue_eq`). -/
def proxyOutcome (env : Env) (d : Downstream) (now : String) (endpoint : String)
    (failStatus : String → Nat) (res : Res) (t : Trace) : Res × Trace :=
  match d (t.length + 1) (primaryCall env endpoint) with
  | .ok data =>
    (res.json (objLit [
      ("success", some (.bool true)),
      ("data", some data),
      ("versions", some (objLit [
        ("main-api", envVal env.SERVICE_VERSION),
        ("auxiliary-service", some (getAuxiliaryServiceVersion env d t).1)])),
      ("timestamp", some (.str now))]),
     t ++ [versionCall env, primaryCall env endpoint])
  | .error m =>
    ((res.status (failStatus ("Auxiliary service error: " ++ m))).json (objLit [
      ("success", some (.bool false)),
      ("error", some (.str ("Auxiliary service error: " ++ m))),
      ("versions", some (objLit [
        ("main-api", envVal env.SERVICE_VERSION),
        ("auxiliary-service", some (getAuxiliaryServiceVersion env d
          (t ++ [versionCall env, primaryCall env endpoint])).1)])),
      ("timestamp", some (.str now))]),
     t ++ [versionCall env, primaryCall env endpoint, versionCall env])

/-! ## Basic facts about the downstream client -/

theorem callAuxiliaryService_trace (env : Env) (d : Downstream) (endpoint : String)
    (t : Trace) :
    (callAuxiliaryService env d endpoint t).2 =
      t ++ [⟨AUXILIARY_SERVICE_URL env ++ endpoint, 10000⟩] := by
  unfold callAuxiliaryService axiosGet
  cases d t.length ⟨AUXILIARY_SERVICE_URL env ++ endpoint, 10000⟩ <;> rfl

theorem callAuxiliaryService_result (env : Env) (d : Downstream) (endpoint : String)
    (t : Trace) :
    (callAuxiliaryService env d endpoint t).1 =
      match d t.length ⟨AUXILIARY_SERVICE_URL env ++ endpoint, 10000⟩ with
      | .ok data => .ok data
      | .error message => .error ("Auxiliary service error: " ++ message) := by
  unfold callAuxiliaryService axiosGet
  cases d t.length ⟨AUXILIARY_SERVICE_URL env ++ endpoint, 10000⟩ <;> rfl

theorem getAuxiliaryServiceVersion_trace (env : Env) (d : Downstream) (t : Trace) :
    (getAuxiliaryServiceVersion env d t).2 =
      t ++ [⟨AUXILIARY_SERVICE_URL env ++ "/version", 10000⟩] := by
  unfold getAuxiliaryServiceVersion callAuxiliaryService axiosGet
  cases d t.length ⟨AUXILIARY_SERVICE_URL env ++ "/version", 10000⟩ with
  | error e => rfl
  | ok response =>
    simp only
    cases response.getProp "version" <;> rfl

theorem getAuxiliaryServiceVersion_eq (env : Env) (d : Downstream) (t : Trace) :
    getAuxiliaryServiceVersion env d t =
      ((getAuxiliaryServiceVersion env d t).1, t ++ [versionCall env]) := by
  exact Prod.ext rfl (getAuxiliaryServiceVersion_trace env d t)

theorem callAuxiliaryService_eq (env : Env) (d : Downstream) (endpoint : String) (t : Trace) :
    callAuxiliaryService env d endpoint t =
      ((match d t.length (primaryCall env endpoint) with
        | .ok data => .ok data
        | .error message => .error ("Auxiliary service error: " ++ message)),
       t ++ [primaryCall env endpoint]) := by
  exact Prod.ext (callAuxiliaryService_result env d endpoint t)
    (callAuxiliaryService_trace env d endpoint t)

theorem listBuckets_eq (env : Env) (d : Downstream) (now : String) (req : Req) (res : Res)
    (t : Trace) :
    listBuckets env d now req res t =
      proxyOutcome env d now "/aws/s3/buckets" (fun _ => 500) res t := by
  unfold listBuckets proxyOutcome
  conv_lhs => rw [getAuxiliaryServiceVersion_eq env d t]
  simp only [callAuxiliaryService_eq, List.length_append, List.length_singleton]
  cases d (t.length + 1) (primaryCall env "/aws/s3/buckets") with
  | ok data => simp
  | error m =>
    simp only
    conv_lhs => rw [getAuxiliaryServiceVersion_eq env d (t ++ [versionCall env] ++ _)]
    simp

theorem listParameters_eq (env : Env) (d : Downstream) (now : String) (req : Req) (res : Res)
    (t : Trace) :
    listParameters env d now req res t =
      proxyOutcome env d now "/aws/parameters/list" (fun _ => 500) res t := by
  unfold listParameters proxyOutcome
  conv_lhs => rw [getAuxiliaryServiceVersion_eq env d t]
  simp only [callAuxiliaryService_eq, List.length_append, List.length_singleton]
  cases d (t.length + 1) (primaryCall env "/aws/parameters/list") with
  | ok data => simp
  | error m =>
    simp only
    conv_lhs => rw [getAuxiliaryServiceVersion_eq env d (t ++ [versionCall env] ++ _)]
    simp

theorem getParameterValue_eq (env : Env) (d : Downstream) (now : String) (req : Req)
    (res : Res) (t : Trace) :
    getParameterValue env d now req res t =
      proxyOutcome env d now (parameterEndpoint req)
        (fun message => if includes message "not found" then 404 else 500) res t := by
  unfold getParameterValue proxyOutcome
  conv_lhs => rw [getAuxiliaryServiceVersion_eq env d t]
  simp only [callAuxiliaryService_eq, List.length_append, List.length_singleton]
  cases d (t.length + 1) (primaryCall env (parameterEndpoint req)) with
  | ok data => simp
  | error m =>
    simp only
    conv_lhs => rw [getAuxiliaryServiceVersion_eq env d (t ++ [versionCall env] ++ _)]
    simp

theorem checkReadiness_trace (env : Env) (d : Downstream) (now : String) (req : Req)
    (res : Res) (t : Trace) :
    (checkReadiness env d now req res t).2 =
      t ++ [⟨render (envVal env.AUXILIARY_SERVICE_URL) ++ "/health", 5000⟩, versionCall env] := by
  unfold checkReadiness axiosGet
  cases d t.length ⟨render (envVal env.AUXILIARY_SERVICE_URL) ++ "/health", 5000⟩ with
  | ok body =>
    simp only
    conv_lhs => rw [getAuxiliaryServiceVersion_eq]
    simp
  | error e =>
    simp only
    conv_lhs => rw [getAuxiliaryServiceVersion_eq]
    simp

/-! ## Parameter lookup: status codes -/

/-- C4, as stated, fails: the call to `/version` succeeds and the body has a
`version` field, the empty string, yet `getAuxiliaryServiceVersion` returns
`unknown` and not the reported string. -/
theorem getAuxiliaryServiceVersion_empty_version :
    downstreamEmptyVersion 0 ⟨AUXILIARY_SERVICE_URL envUnset ++ "/version", 10000⟩
        = .ok (.obj [("version", .str "")])
      ∧ Json.field (.obj [("version", .str "")]) "version" = some (.str "")
      ∧ (getAuxiliaryServiceVersion envUnset downstreamEmptyVersion []).1 = .str "unknown"
      ∧ (getAuxiliaryServiceVersion envUnset downstreamEmptyVersion []).1 ≠ .str "" := by
  refine ⟨rfl, rfl, rfl, ?_⟩
  intro h
  have h2 : (Json.str "unknown") = Json.str "" := h
  injection h2 with h3
  exact absurd h3 (by decide)

/-- C4, amended. `getAuxiliaryServiceVersion` always returns a value: the
string `unknown` when the call to `/version` fails, when the body is `null`
or not an object, when the body has no `version` field and when that field is
falsy (`null`, `false`, `0`, the empty string); the value of the `version`
field otherwise.  It issues exactly one request, to `/version`. -/
theorem getAuxiliaryServiceVersion_total (env : Env) (d : Downstream) (t : Trace) :
    (getAuxiliaryServiceVersion env d t).1 =
        (match d t.length ⟨AUXILIARY_SERVICE_URL env ++ "/version", 10000⟩ with
          | .error _ => .str "unknown"
          | .ok body =>
            match body.field "version" with
            | none => .str "unknown"
            | some version => if version.truthy then version else .str "unknown")
      ∧ (getAuxiliaryServiceVersion env d t).2 =
          t ++ [⟨AUXILIARY_SERVICE_URL env ++ "/version", 10000⟩] := by
  refine ⟨?_, getAuxiliaryServiceVersion_trace env d t⟩
  unfold getAuxiliaryServiceVersion callAuxiliaryService axiosGet
  cases d t.length ⟨AUXILIARY_SERVICE_URL env ++ "/version", 10000⟩ with
  | error e => rfl
  | ok body =>
    cases body with
    | obj fields =>
      simp only [Json.getProp, Json.field, jsOr]
      cases Json.lookup "version" fields <;> rfl
    | _ => rfl

/-! ## The response envelope -/

/-- C6. `checkReadiness` answers 200 with `status` ready, `versions`,
`service` main-api and no `error` when the GET to the health endpoint
succeeds, whatever its body; it answers 503 with `status` not ready, the fixed
`error` text, `versions` and `service` main-api when that GET fails.  No other
status code is produced. -/
theorem checkReadiness_response (env : Env) (d : Downstream) (now : String) (req : Req) :
    (match d 0 ⟨render (envVal env.AUXILIARY_SERVICE_URL) ++ "/health", 5000⟩ with
      | .ok _ =>
        (checkReadiness env d now req Res.fresh []).1.statusCode = 200
          ∧ (checkReadiness env d now req Res.fresh []).1.field "status" = some (.str "ready")
          ∧ (∃ fields, (checkReadiness env d now req Res.fresh []).1.field "versions"
              = some (.obj fields))
          ∧ (checkReadiness env d now req Res.fresh []).1.field "service"
              = some (.str "main-api")
          ∧ (checkReadiness env d now req Res.fresh []).1.field "error" = none
      | .error _ =>
        (checkReadiness env d now req Res.fresh []).1.statusCode = 503
          ∧ (checkReadiness env d now req Res.fresh []).1.field "status"
              = some (.str "not ready")
          ∧ (checkReadiness env d now req Res.fresh []).1.field "error"
              = some (.str "Auxiliary service not available")
          ∧ (∃ fields, (checkReadiness env d now req Res.fresh []).1.field "versions"
              = some (.obj fields))
          ∧ (checkReadiness env d now req Res.fresh []).1.field "service"
              = some (.str "main-api"))
    ∧ ((checkReadiness env d now req Res.fresh []).1.statusCode = 200
        ∨ (checkReadiness env d now req Res.fresh []).1.statusCode = 503) := by
  unfold checkReadiness axiosGet
  simp only [List.length_nil]
  cases d 0 ⟨render (envVal env.AUXILIARY_SERVICE_URL) ++ "/health", 5000⟩ with
  | ok body =>
    simp only [Res.field, Res.json, Res.status, Res.fresh, objLit, List.filterMap_cons,
      Option.map_some', Json.lookup]
    refine ⟨⟨by simp, by simp, ⟨_, by simp; rfl⟩, by simp, by simp⟩, by simp⟩
  | error e =>
    simp only [Res.field, Res.json, Res.status, Res.fresh, objLit, List.filterMap_cons,
      Option.map_some', Json.lookup]
    refine ⟨⟨by simp, by simp, by simp, ⟨_, by simp; rfl⟩, by simp⟩, by simp⟩

/-- C7. The answer to `GET /api/health` is status 200 with the text body `OK`
for every world, hence the same for any two states of the downstream service,
and serving it issues no downstream request. -/
theorem liveness_independent (w w' : World) (m m' : Metrics) (query : List (String × Json)) :
    (handle w ⟨"GET", ["api", "health"], query⟩ m).res = ⟨200, some (.text "OK")⟩
      ∧ (handle w ⟨"GET", ["api", "health"], query⟩ m).trace = []
      ∧ (handle w ⟨"GET", ["api", "health"], query⟩ m).res
          = (handle w' ⟨"GET", ["api", "health"], query⟩ m').res
      ∧ (Handler.liveness.run w getHealth Res.fresh []).2 = [] := by
  refine ⟨rfl, rfl, rfl, rfl⟩

/-! ## The forwarded endpoint -/

/-- C5 at an environment without `SERVICE_VERSION`: the envelopes of the four
route handlers carry no `main-api` version at all, while the 404 handler and
the error handler of `src/index.js` report the default 1.0.0. -/
theorem main_api_version_unset (d : Downstream) (now : String) (req : Req) :
    (listBuckets envUnset d now req Res.fresh []).1.version "main-api" = none
      ∧ (listParameters envUnset d now req Res.fresh []).1.version "main-api" = none
      ∧ (getParameterValue envUnset d now req Res.fresh []).1.version "main-api" = none
      ∧ (checkReadiness envUnset d now req Res.fresh []).1.version "main-api" = none
      ∧ (notFoundHandler envUnset now Res.fresh).version "main-api" = some (.str "1.0.0")
      ∧ (errorHandler envUnset now Res.fresh).version "main-api" = some (.str "1.0.0") := by
  refine ⟨?_, ?_, ?_, ?_, rfl, rfl⟩
  · rw [listBuckets_eq]
    simp only [proxyOutcome]
    cases d ([] : Trace).length.succ (primaryCall envUnset "/aws/s3/buckets") <;> rfl
  · rw [listParameters_eq]
    simp only [proxyOutcome]
    cases d ([] : Trace).length.succ (primaryCall envUnset "/aws/parameters/list") <;> rfl
  · rw [getParameterValue_eq]
    simp only [proxyOutcome]
    cases d ([] : Trace).length.succ (primaryCall envUnset (parameterEndpoint req)) <;> rfl
  · unfold checkReadiness axiosGet
    simp only
    cases d ([] : Trace).length
      ⟨render (envVal envUnset.AUXILIARY_SERVICE_URL) ++ "/health", 5000⟩ <;> rfl

/-- C9 at an environment without `AUXILIARY_SERVICE_URL`: `checkReadiness`
requests `undefined/health`, while `callAuxiliaryService` requests the default
base `http://localhost:3001` followed by the endpoint. -/
theorem readiness_url_unset (d : Downstream) (now : String) (req : Req) (endpoint : String) :
    (checkReadiness envUnset d now req Res.fresh []).2.head? = some ⟨"undefined/health", 5000⟩
      ∧ (callAuxiliaryService envUnset d endpoint []).2
          = [⟨"http://localhost:3001" ++ endpoint, 10000⟩]
      ∧ (checkReadiness envSet d now req Res.fresh []).2.head?
          = some ⟨"http://aux:3001/health", 5000⟩
      ∧ (callAuxiliaryService envSet d endpoint []).2
          = [⟨"http://aux:3001" ++ endpoint, 10000⟩] := by
  refine ⟨?_, ?_, ?_, ?_⟩
  · rw [checkReadiness_trace]
    rfl
  · rw [callAuxiliaryService_trace]
    rfl
  · rw [checkReadiness_trace]
    rfl
  · rw [callAuxiliaryService_trace]
    rfl

/-- C3 on the five defined routes: the routers answer before the metrics
middleware is reached, so the counter and the histogram are left as they
were (after `GET /api/health` on fresh metrics the counter is 0 for every
label set); a request to `/metrics` or to an unmatched path is recorded
once. -/
theorem defined_routes_not_counted (w : World) (m : Metrics) :
    (∀ l : Labels, (handle w getHealth createPrometheusMetrics).metrics.requests l = 0)
      ∧ (handle w getHealth m).metrics = m
      ∧ (handle w getReady m).metrics = m
      ∧ (handle w getBuckets m).metrics = m
      ∧ (handle w getParameter m).metrics = m
      ∧ (handle w getParameterList m).metrics = m
      ∧ (handle w getNope m).metrics.httpRequestsTotal
          = m.httpRequestsTotal ++ [⟨"GET", "/nope", 404⟩]
      ∧ (handle w getNope m).metrics.httpRequestDuration
          = m.httpRequestDuration ++ [(⟨"GET", "/nope", 404⟩, w.finishMs - w.startMs)]
      ∧ (handle w getMetrics m).metrics.httpRequestsTotal
          = m.httpRequestsTotal ++
              [⟨"GET", "/metrics", (handle w getMetrics m).res.statusCode⟩] := by
  have ready : (dispatch w getReady app ⟨Res.fresh, [], none, [], none⟩).listeners = [] := rfl
  have buckets : (dispatch w getBuckets app ⟨Res.fresh, [], none, [], none⟩).listeners = [] :=
    rfl
  have parameter :
      (dispatch w getParameter app ⟨Res.fresh, [], none, [], none⟩).listeners = [] := rfl
  have list :
      (dispatch w getParameterList app ⟨Res.fresh, [], none, [], none⟩).listeners = [] := rfl
  refine ⟨fun _ => rfl, rfl, ?_, ?_, ?_, ?_, rfl, rfl, ?_⟩
  · simp [handle, ready]
  · simp [handle, buckets]
  · simp [handle, parameter]
  · simp [handle, list]
  · have hl : (dispatch w getMetrics app ⟨Res.fresh, [], none, [], none⟩).listeners
        = [w.startMs] := rfl
    have hr : (dispatch w getMetrics app ⟨Res.fresh, [], none, [], none⟩).route
        = some "/metrics" := rfl
    have hs : (dispatch w getMetrics app ⟨Res.fresh, [], none, [], none⟩).res.sent = true := by
      show (metricsEndpoint w Res.fresh).sent = true
      unfold metricsEndpoint
      cases w.exposition <;> rfl
    simp [handle, hl, hr, hs, onFinish, finishLabels]
    rfl

end MainApi
